import Mathlib

/-!
Shallow embedding of `src/gitleaks_detection.py`.

The program wraps the gitleaks CLI: `run_gitleaks` classifies the scanner's
exit status and on failure writes an `ErrorModel` JSON document and calls
`sys.exit`; `process_output` reads the scanner's report file, reshapes each
raw record into a `Finding`, and overwrites the file with
a findings document, or with an `ErrorModel` document when one of the
caught exceptions (`FileNotFoundError`, `ValidationError`, `KeyError`) is
raised.  Exceptions outside that tuple (`TypeError` from subscripting a
non-dict, `json.JSONDecodeError` from unparsable file content) propagate and
abort the interpreter with a traceback, which exits with status 1 and leaves
the file content untouched.

File contents are modelled as `Content`: either a parsed JSON value
(`json.load` succeeds) or raw text (`json.load` raises).  Python machine
integers are unbounded, so JSON numbers are `Int`.
-/

namespace GitleaksDetection

/-- Parsed JSON values as Python's `json.load` produces them.  An `obj` models
the resulting Python dict (insertion order, unique keys, since `json.load`
collapses duplicates). -/
inductive JValue where
  | null
  | bool (b : Bool)
  | num (n : Int)
  | str (s : String)
  | arr (elems : List JValue)
  | obj (fields : List (String × JValue))

/-- Content of a file on disk: either text that parses as JSON (abstracted to
the parsed value) or text that `json.load` rejects. -/
inductive Content where
  | json (v : JValue)
  | text (s : String)

/-- The pydantic `Finding` model of the source: all three fields are `str`. -/
structure Finding where
  filename : String
  line_range : String
  description : String
deriving DecidableEq

/-- The pydantic `ErrorModel` of the source. -/
structure ErrorModel where
  exit_code : Int
  error_message : String
deriving DecidableEq

/-- Python `sub in s` (substring containment) over char lists: some suffix of
`s` starts with `sub`.  The empty `sub` is contained in everything. -/
def containsList : List Char → List Char → Bool
  | _, [] => true
  | [], _ :: _ => false
  | c :: rest, d :: sub => (d :: sub).isPrefixOf (c :: rest) || containsList rest (d :: sub)

/-- Python `sub in s` (substring containment) for strings. -/
def pyContains (s sub : String) : Bool :=
  containsList s.toList sub.toList

/-- Python `s.split(sep)` over char lists for nonempty `sep`: scan left to
right, split at each non-overlapping occurrence of `sep`.  The `fuel`
argument only makes the recursion structural; with `fuel ≥ length of the
input` it is never exhausted, since every step consumes at least one
character. -/
def pySplitAux (sep : List Char) : Nat → List Char → List (List Char)
  | _, [] => [[]]
  | 0, s => [s]
  | fuel + 1, c :: rest =>
      if sep.isPrefixOf (c :: rest) then
        [] :: pySplitAux sep fuel ((c :: rest).drop sep.length)
      else
        match pySplitAux sep fuel rest with
        | [] => [[c]]
        | part :: parts => (c :: part) :: parts

/-- Python `s.split(sep)` for strings (the sources only call it with a
nonempty literal separator; Python raises on an empty one, modelled as the
whole string). -/
def pySplit (s sep : String) : List String :=
  if sep = "" then [s]
  else (pySplitAux sep.toList s.toList.length s.toList).map (fun l => String.mk l)

/-- The characters Python `str.strip()` removes. -/
def isPySpace (c : Char) : Bool :=
  c = ' ' || c = '\t' || c = '\n' || c = '\r' || c = '\x0b' || c = '\x0c'

/-- Python `s.strip()`: drop whitespace from both ends. -/
def pyStrip (s : String) : String :=
  String.mk (((s.toList.dropWhile isPySpace).reverse.dropWhile isPySpace).reverse)

/-- `stderr_message.split("unknown flag: ")[-1].split("\n")[0]` from
`run_gitleaks` (line 87): everything after the last occurrence of the
marker, up to the next line break. -/
def extractUnknownFlag (msg : String) : String :=
  (pySplit ((pySplit msg ("unknown flag: ")).getLastD msg) ("\n")).headD ("")

/-- `e.output.strip() if e.output else "No error message captured."`
(line 83).  `e.output` is `result.stderr`, a string, falsy iff empty. -/
def stderrMessage (stderr : String) : String :=
  if stderr = "" then "No error message captured." else pyStrip stderr

/-- Result of `run_gitleaks`: either control returns to `__main__` (exit code
0 or 1), or an `ErrorModel` is written to the output path and `sys.exit` is
called with the scanner's own return code. -/
inductive GitleaksResult where
  | proceed
  | fail (written : ErrorModel) (exitCode : Int)
deriving DecidableEq

/-- The ErrorModel written by a failing `run_gitleaks`, if any. -/
def GitleaksResult.writtenDoc : GitleaksResult → Option ErrorModel
  | .proceed => none
  | .fail e _ => some e

/-- The `sys.exit` argument of a failing `run_gitleaks`, if any. -/
def GitleaksResult.sysExitCode : GitleaksResult → Option Int
  | .proceed => none
  | .fail _ c => some c

/-- `run_gitleaks` (lines 67-101) as a function of the scanner's return code
and captured stderr.  Return codes 0 and 1 return normally; any other code
raises `CalledProcessError`, whose handler builds an `ErrorModel` (code 2 on
the unknown-flag pattern, otherwise the scanner's code with trimmed stderr)
and then calls `sys.exit(e.returncode)`. -/
def runGitleaks (returncode : Int) (stderr : String) : GitleaksResult :=
  if returncode = 0 ∨ returncode = 1 then
    .proceed
  else
    let msg := stderrMessage stderr
    if pyContains msg ("unknown flag") then
      .fail ⟨2, "Gitleaks scan failed: unknown argument \x27" ++ extractUnknownFlag msg ++ "\x27."⟩
        returncode
    else
      .fail ⟨returncode, "Gitleaks scan failed: " ++ msg⟩ returncode

/-- Lookup in a parsed-JSON dict (keys unique after `json.load`). -/
def dictLookup (fields : List (String × JValue)) (k : String) : Option JValue :=
  (fields.find? (fun p => p.1 == k)).map (fun p => p.2)

/-- Python exceptions the reshape loop can raise.  `keyError` and
`validationError` are in the caught tuple of `process_output`;
`typeError` (subscripting a non-dict record, iterating a non-iterable) and
`jsonDecodeError` (unparsable file content) are not and crash the program.
`str(ValidationError)` is pydantic-internal text; it is modelled abstractly
as a deterministic summary naming the invalid fields in declaration order. -/
inductive PyExc where
  | keyError (k : String)
  | validationError (fields : List String)
  | typeError
  | jsonDecodeError
deriving DecidableEq

/-- Whether the exception is in `process_output`'s caught tuple
`(FileNotFoundError, ValidationError, KeyError)`. -/
def PyExc.caught : PyExc → Bool
  | .keyError _ => true
  | .validationError _ => true
  | .typeError => false
  | .jsonDecodeError => false

/-- `str(e)` for the raised exception.  `str(KeyError(k))` is the quoted key. -/
def PyExc.msg : PyExc → String
  | .keyError k => "\x27" ++ k ++ "\x27"
  | .validationError fields =>
      toString fields.length ++ " validation error(s) for Finding: " ++
        String.intercalate (", ") fields
  | .typeError => "TypeError"
  | .jsonDecodeError => "JSONDecodeError"

mutual

/-- Python `repr` of a parsed-JSON value (string escaping inside `repr` of a
`str` is out of scope and omitted). -/
def pyRepr : JValue → String
  | .null => "None"
  | .bool true => "True"
  | .bool false => "False"
  | .num n => toString n
  | .str s => "\x27" ++ s ++ "\x27"
  | .arr elems => "[" ++ pyReprElems elems ++ "]"
  | .obj fields => "\x7b" ++ pyReprFields fields ++ "\x7d"

/-- Comma-separated `repr`s of list elements. -/
def pyReprElems : List JValue → String
  | [] => ""
  | [v] => pyRepr v
  | v :: rest => pyRepr v ++ ", " ++ pyReprElems rest

/-- Comma-separated `repr`s of dict entries. -/
def pyReprFields : List (String × JValue) → String
  | [] => ""
  | [kv] => "\x27" ++ kv.1 ++ "\x27: " ++ pyRepr kv.2
  | kv :: rest => "\x27" ++ kv.1 ++ "\x27: " ++ pyRepr kv.2 ++ ", " ++ pyReprFields rest

end

/-- Python `str(x)` as used by the f-string `f"<StartLine>-<EndLine>"`:
identity on strings, `repr` otherwise (which is what `str` prints for
`None`, booleans, numbers, lists and dicts). -/
def pyStr : JValue → String
  | .str s => s
  | v => pyRepr v

/-- The string payload of a `str` value (only used where validation has
already established the value is a `str`). -/
def strOf : JValue → String
  | .str s => s
  | _ => ""

/-- `item[k]` on a record, `none` when the record is a dict missing `k` or is
not a dict at all. -/
def jGet (it : JValue) (k : String) : Option JValue :=
  match it with
  | .obj fields => dictLookup fields k
  | _ => none

/-- The `File` field of a record (defaulting where absent/ill-typed). -/
def recFile (it : JValue) : String := strOf ((jGet it ("File")).getD JValue.null)

/-- The `StartLine` field of a record. -/
def recStart (it : JValue) : JValue := (jGet it ("StartLine")).getD JValue.null

/-- The `EndLine` field of a record. -/
def recEnd (it : JValue) : JValue := (jGet it ("EndLine")).getD JValue.null

/-- The `Description` field of a record. -/
def recDescription (it : JValue) : String :=
  strOf ((jGet it ("Description")).getD JValue.null)

/-- The `Finding` the reshape comprehension builds from one valid record
(lines 120-127): `filename=item["File"]`,
`line_range=f"<item['StartLine']>-<item['EndLine']>"`,
`description=item["Description"]`. -/
def mkFinding (it : JValue) : Finding :=
  ⟨recFile it, pyStr (recStart it) ++ "-" ++ pyStr (recEnd it), recDescription it⟩

/-- Whether the record is a dict (so subscripting raises at worst
`KeyError`, never `TypeError`). -/
def isObjRecord : JValue → Bool
  | .obj _ => true
  | _ => false

/-- Whether an optional field value is present and a JSON string. -/
def isStrOpt : Option JValue → Bool
  | some (.str _) => true
  | _ => false

/-- Whether a record passes the reshape's per-record validation: a dict with
all four keys present, and `File` / `Description` strings (pydantic `str`
fields do not coerce other JSON types). -/
def isValidRecord (it : JValue) : Bool :=
  match it with
  | .obj fields =>
      isStrOpt (dictLookup fields ("File")) &&
      (dictLookup fields ("StartLine")).isSome &&
      (dictLookup fields ("EndLine")).isSome &&
      isStrOpt (dictLookup fields ("Description"))
  | _ => false

/-- Pydantic's validation of the `Finding` kwargs, reached only after all
four subscripts succeeded: `filename` and `description` must be `str`
(`line_range` is an f-string, always `str`). -/
def pydanticValidate (fileV descV : JValue) : Option PyExc :=
  match fileV, descV with
  | .str _, .str _ => none
  | .str _, _ => some (.validationError [("description")])
  | _, .str _ => some (.validationError [("filename")])
  | _, _ => some (.validationError [("filename"), ("description")])

/-- One iteration of the reshape comprehension.  Kwargs evaluate left to
right, so a missing key raises `KeyError` in source order `File`,
`StartLine`, `EndLine`, `Description` before pydantic validates; a
non-dict record raises `TypeError` on the first subscript. -/
def processItem (it : JValue) : Except PyExc Finding :=
  match it with
  | .obj fields =>
    match dictLookup fields ("File") with
    | none => .error (.keyError ("File"))
    | some fileV =>
      match dictLookup fields ("StartLine") with
      | none => .error (.keyError ("StartLine"))
      | some startV =>
        match dictLookup fields ("EndLine") with
        | none => .error (.keyError ("EndLine"))
        | some endV =>
          match dictLookup fields ("Description") with
          | none => .error (.keyError ("Description"))
          | some descV =>
            match pydanticValidate fileV descV with
            | some e => .error e
            | none => .ok ⟨strOf fileV, pyStr startV ++ "-" ++ pyStr endV, strOf descV⟩
  | _ => .error .typeError

/-- The whole comprehension `[Finding(...) for item in raw_data]` over a
list: items in order, first exception aborts. -/
def mapFindings : List JValue → Except PyExc (List Finding)
  | [] => .ok []
  | it :: rest =>
    match processItem it with
    | .error e => .error e
    | .ok f =>
      match mapFindings rest with
      | .error e => .error e
      | .ok fs => .ok (f :: fs)

/-- Outcome of `process_output`: normal completion with the findings list
(the file now holds the findings document), a caught exception turned into
an `ErrorModel` write plus `sys.exit(1)`, or an uncaught exception that
aborts the interpreter leaving the file holding `content`. -/
inductive POResult where
  | ok (findings : List Finding)
  | errorWritten (err : ErrorModel)
  | crash (e : PyExc) (content : Content)

/-- Whether `process_output` wrote an `ErrorModel` document. -/
def POResult.wroteError : POResult → Bool
  | .errorWritten _ => true
  | _ => false

/-- Whether `process_output` completed normally. -/
def POResult.completedOk : POResult → Bool
  | .ok _ => true
  | _ => false

/-- Whether `process_output` wrote an `ErrorModel` carrying exit code 1. -/
def POResult.isErrorWrite1 : POResult → Bool
  | .errorWritten e => e.exit_code == 1
  | _ => false

/-- `process_output` (lines 104-141) as a function of the report file's
state (`none` = no file).  A missing file is first created holding `[]`.
`json.load` on unparsable text raises `JSONDecodeError` — not in the caught
tuple, so the program crashes with the file unchanged.  Iterating a parsed
dict yields its keys (strings) and iterating a nonempty string yields
characters, so the first subscript raises an uncaught `TypeError`; iterating
an empty dict or empty string yields nothing, producing empty findings;
iterating `null`, a boolean or a number raises `TypeError` immediately. -/
def process_output (c0 : Option Content) : POResult :=
  let c := c0.getD (Content.json (JValue.arr []))
  match c with
  | .text s => .crash .jsonDecodeError (.text s)
  | .json v =>
    match v with
    | .arr items =>
      match mapFindings items with
      | .ok fs => .ok fs
      | .error e =>
        if e.caught then .errorWritten ⟨1, e.msg⟩ else .crash e (.json (.arr items))
    | .obj [] => .ok []
    | .obj (kv :: rest) => .crash .typeError (.json (.obj (kv :: rest)))
    | .str s => if s = "" then .ok [] else .crash .typeError (.json (.str s))
    | other => .crash .typeError (.json other)

/-- JSON serialization of a `Finding` (`model_dump` then `json.dump`,
insertion order). -/
def findingJson (f : Finding) : JValue :=
  .obj [(("filename"), .str f.filename), (("line_range"), .str f.line_range),
        (("description"), .str f.description)]

/-- The findings document `process_output` writes on success. -/
def reportDoc (fs : List Finding) : Content :=
  .json (.obj [(("findings"), .arr (fs.map findingJson))])

/-- The JSON document `write_error_to_file` writes for an `ErrorModel`. -/
def errorDoc (e : ErrorModel) : Content :=
  .json (.obj [(("exit_code"), .num e.exit_code), (("error_message"), .str e.error_message)])

/-- Final observable state of one program run past argument validation: the
content of the report file, the process exit status, and whether termination
was an uncaught-exception traceback. -/
structure RunOutcome where
  fileContent : Content
  exitCode : Int
  crashed : Bool

/-- `run_gitleaks(...)` followed by `process_output(...)` (lines 232-233) as
a function of the scanner's return code, its stderr, and the report file
content the scanner left behind.  A failing `run_gitleaks` writes its
`ErrorModel` and exits with the scanner's code; otherwise `process_output`
determines the final file content and the exit status (0 on success, 1 both
for a written reshape error and for an uncaught exception — Python exits
with status 1 on an uncaught exception). -/
def runPipeline (returncode : Int) (stderr : String) (file : Option Content) : RunOutcome :=
  match runGitleaks returncode stderr with
  | .fail err c => ⟨errorDoc err, c, false⟩
  | .proceed =>
    match process_output file with
    | .ok fs => ⟨reportDoc fs, 0, false⟩
    | .errorWritten e => ⟨errorDoc e, 1, false⟩
    | .crash _ c => ⟨c, 1, true⟩

/-- Whether a JSON value has the NormalizedFinding shape. -/
def isFindingShape : JValue → Bool
  | .obj [(k1, .str _), (k2, .str _), (k3, .str _)] =>
      k1 == "filename" && k2 == "line_range" && k3 == "description"
  | _ => false

/-- Whether a JSON value has the ReportDocument shape. -/
def isReportShape : JValue → Bool
  | .obj [(k, .arr elems)] => k == "findings" && elems.all isFindingShape
  | _ => false

/-- Whether a JSON value has the ErrorDocument shape. -/
def isErrorShape : JValue → Bool
  | .obj [(k1, .num _), (k2, .str _)] => k1 == "exit_code" && k2 == "error_message"
  | _ => false

/-- Whether file content is one well-formed JSON document of one of the two
terminal shapes. -/
def isDocShape : Content → Bool
  | .json v => isReportShape v || isErrorShape v
  | .text _ => false

/-- Outcome of the `__main__` validation steps and of
`CustomArgumentParser.error`: proceed, or write an `ErrorModel` to `path`
and exit with `code`. -/
inductive ValidationResult where
  | proceed
  | fail (written : ErrorModel) (path : String) (code : Int)
deriving DecidableEq

/-- The path a failing validation writes its `ErrorModel` to, if any. -/
def ValidationResult.targetPath : ValidationResult → Option String
  | .proceed => none
  | .fail _ p _ => some p

/-- The source validation of `__main__` (lines 200-213): `args.source or
None` maps an absent flag and the empty string to `None`; a missing source
and a non-existing path each write an `ErrorModel` to the literal path
`"output.json"` and exit 2.  Only `Path(source).exists()` is consulted —
nothing distinguishes files from directories. -/
def validateSource (source : Option String) (existsFn : String → Bool) : ValidationResult :=
  match (match source with
         | none => none
         | some s => if s = "" then none else some s) with
  | none =>
      .fail ⟨2, "Gitleaks scan failed: please provide a source folder"⟩ ("output.json") 2
  | some s =>
      if existsFn s then .proceed
      else
        .fail ⟨2, "Gitleaks scan failed: please provide a valid source folder"⟩
          ("output.json") 2

/-- The usage hint `CustomArgumentParser.error` appends (lines 149-153). -/
def additionalMessage : String :=
  "Please provide the arguments like this:\n --source \"the source path\" --report-path \"the report path\" \x7bgitleaks command\x7d gitleaks subcommand (e.g., detect, protect, etc.) additional args (e.g --no-git)"

/-- `CustomArgumentParser.error` (lines 144-159): every argparse error
writes its `ErrorModel` to the literal path `"output.json"` and exits 2. -/
def parserError (message : String) : ValidationResult :=
  .fail ⟨2, "Gitleaks scan failed: " ++ message ++ " \n\n " ++ additionalMessage⟩
    ("output.json") 2

/-- Any serialized `ErrorModel` has the ErrorDocument shape. -/
theorem isDocShape_errorDoc (e : ErrorModel) : isDocShape (errorDoc e) = true := rfl

/-- Any serialized `Finding` has the NormalizedFinding shape. -/
theorem isFindingShape_findingJson (f : Finding) : isFindingShape (findingJson f) = true := rfl

/-- Any serialized findings list has the ReportDocument shape. -/
theorem isDocShape_reportDoc (fs : List Finding) : isDocShape (reportDoc fs) = true := by
  have hall : ∀ l : List Finding, (l.map findingJson).all isFindingShape = true := by
    intro l
    induction l with
    | nil => rfl
    | cons f rest ih => simp [List.all_cons, ih, isFindingShape_findingJson]
  simp [isDocShape, reportDoc, isReportShape, hall fs]

/-- A record passing per-record validation reshapes to exactly `mkFinding`. -/
theorem processItem_valid (it : JValue) (h : isValidRecord it = true) :
    processItem it = Except.ok (mkFinding it) := by
  cases it with
  | obj fields =>
    simp only [isValidRecord, Bool.and_eq_true] at h
    obtain ⟨⟨⟨hF, hS⟩, hE⟩, hD⟩ := h
    cases hFv : dictLookup fields ("File") with
    | none => rw [hFv] at hF; simp [isStrOpt] at hF
    | some fv =>
      cases hSv : dictLookup fields ("StartLine") with
      | none => rw [hSv] at hS; simp at hS
      | some sv =>
        cases hEv : dictLookup fields ("EndLine") with
        | none => rw [hEv] at hE; simp at hE
        | some ev =>
          cases hDv : dictLookup fields ("Description") with
          | none => rw [hDv] at hD; simp [isStrOpt] at hD
          | some dv =>
            rw [hFv] at hF; rw [hDv] at hD
            cases fv with
            | str a =>
              cases dv with
              | str d =>
                simp [processItem, hFv, hSv, hEv, hDv, pydanticValidate, mkFinding,
                  recFile, recStart, recEnd, recDescription, jGet, strOf]
              | null => simp [isStrOpt] at hD
              | bool b => simp [isStrOpt] at hD
              | num n => simp [isStrOpt] at hD
              | arr l => simp [isStrOpt] at hD
              | obj l => simp [isStrOpt] at hD
            | null => simp [isStrOpt] at hF
            | bool b => simp [isStrOpt] at hF
            | num n => simp [isStrOpt] at hF
            | arr l => simp [isStrOpt] at hF
            | obj l => simp [isStrOpt] at hF
  | null => simp [isValidRecord] at h
  | bool b => simp [isValidRecord] at h
  | num n => simp [isValidRecord] at h
  | str s => simp [isValidRecord] at h
  | arr l => simp [isValidRecord] at h

/-- A dict record failing per-record validation raises an exception inside
the caught tuple (a `KeyError` or a pydantic `ValidationError`). -/
theorem processItem_invalid (it : JValue) (hobj : isObjRecord it = true)
    (h : isValidRecord it = false) :
    ∃ e : PyExc, processItem it = Except.error e ∧ e.caught = true := by
  cases it with
  | obj fields =>
    cases hFv : dictLookup fields ("File") with
    | none => exact ⟨.keyError ("File"), by simp [processItem, hFv], rfl⟩
    | some fv =>
      cases hSv : dictLookup fields ("StartLine") with
      | none => exact ⟨.keyError ("StartLine"), by simp [processItem, hFv, hSv], rfl⟩
      | some sv =>
        cases hEv : dictLookup fields ("EndLine") with
        | none => exact ⟨.keyError ("EndLine"), by simp [processItem, hFv, hSv, hEv], rfl⟩
        | some ev =>
          cases hDv : dictLookup fields ("Description") with
          | none =>
            exact ⟨.keyError ("Description"), by simp [processItem, hFv, hSv, hEv, hDv], rfl⟩
          | some dv =>
            cases hpv : pydanticValidate fv dv with
            | some e =>
              refine ⟨e, by simp [processItem, hFv, hSv, hEv, hDv, hpv], ?_⟩
              cases fv <;> cases dv <;>
                simp [pydanticValidate] at hpv <;> simp [← hpv, PyExc.caught]
            | none =>
              exfalso
              cases fv <;> cases dv <;> simp [pydanticValidate] at hpv
              simp [isValidRecord, hFv, hSv, hEv, hDv, isStrOpt] at h
  | null => simp [isObjRecord] at hobj
  | bool b => simp [isObjRecord] at hobj
  | num n => simp [isObjRecord] at hobj
  | str s => simp [isObjRecord] at hobj
  | arr l => simp [isObjRecord] at hobj

/-- The reshape comprehension on all-valid records maps `mkFinding` over the
records in order. -/
theorem mapFindings_valid (items : List JValue) (h : items.all isValidRecord = true) :
    mapFindings items = Except.ok (items.map mkFinding) := by
  induction items with
  | nil => rfl
  | cons it rest ih =>
    simp only [List.all_cons, Bool.and_eq_true] at h
    simp [mapFindings, processItem_valid it h.1, ih h.2]

/-- The reshape comprehension on all-dict records with at least one invalid
record aborts with a caught exception. -/
theorem mapFindings_invalid (items : List JValue) (hobj : items.all isObjRecord = true)
    (hbad : items.any (fun it => !isValidRecord it) = true) :
    ∃ e : PyExc, mapFindings items = Except.error e ∧ e.caught = true := by
  induction items with
  | nil => simp at hbad
  | cons it rest ih =>
    simp only [List.all_cons, Bool.and_eq_true] at hobj
    by_cases hv : isValidRecord it = true
    · have hbad' : rest.any (fun it => !isValidRecord it) = true := by
        simp only [List.any_cons] at hbad
        simpa [hv] using hbad
      obtain ⟨e, he, hc⟩ := ih hobj.2 hbad'
      exact ⟨e, by simp [mapFindings, processItem_valid it hv, he], hc⟩
    · obtain ⟨e, he, hc⟩ := processItem_invalid it hobj.1 (by simpa using hv)
      exact ⟨e, by simp [mapFindings, he], hc⟩

/-- C5: for a scanner exit code other than 0 and 1 whose stderr does not
contain the unknown-flag marker, `run_gitleaks` writes an ErrorDocument
whose `exit_code` is the scanner's own exit code and whose message is
"Gitleaks scan failed: " followed by the trimmed stderr ("No error message
captured." when stderr is empty), and exits with that same code. -/
theorem c5_scanner_error_propagated (c : Int) (s : String) (h : ¬(c = 0 ∨ c = 1))
    (hm : pyContains (stderrMessage s) ("unknown flag") = false) :
    runGitleaks c s =
      GitleaksResult.fail
        ⟨c, "Gitleaks scan failed: " ++
          (if s = "" then ("No error message captured.") else pyStrip s)⟩ c := by
  unfold runGitleaks
  rw [if_neg h]
  simp only [hm, Bool.false_eq_true, if_false]
  rfl

/-- Witness for C5 at scanner exit 3 and whitespace-padded stderr. -/
theorem c5_scanner_error_propagated_witness :
    runGitleaks 3 (" boom\n") =
      GitleaksResult.fail ⟨3, "Gitleaks scan failed: boom"⟩ 3 :=
  c5_scanner_error_propagated 3 (" boom\n") (by decide) rfl

/-- C6: scanner exit codes 0 and 1 both return control to `__main__`
without writing anything and without exiting, so `process_output` runs, and
the rest of the run is identical for the two codes (and ignores stderr). -/
theorem c6_success_and_findings_proceed (c : Int) (s : String) (f : Option Content)
    (h : c = 0 ∨ c = 1) :
    runGitleaks c s = GitleaksResult.proceed ∧ runPipeline c s f = runPipeline 0 ("") f := by
  have h1 : runGitleaks c s = GitleaksResult.proceed := by
    unfold runGitleaks
    rw [if_pos h]
  refine ⟨h1, ?_⟩
  unfold runPipeline
  rw [h1, show runGitleaks 0 ("") = GitleaksResult.proceed from rfl]

/-- Witness for C6 at scanner exit 1. -/
theorem c6_success_and_findings_proceed_witness :
    runGitleaks 1 ("w") = GitleaksResult.proceed ∧
      runPipeline 1 ("w") none = runPipeline 0 ("") none :=
  c6_success_and_findings_proceed 1 ("w") none (Or.inr rfl)

/-- C7: when the report file does not exist, `process_output` creates it
holding an empty array, reshapes it to zero findings, and the run ends with
the file holding the empty findings document and exit status 0. -/
theorem c7_missing_file_empty_findings (c : Int) (s : String) (h : c = 0 ∨ c = 1) :
    process_output none = POResult.ok [] ∧
      runPipeline c s none = ⟨reportDoc [], 0, false⟩ := by
  have h1 : runGitleaks c s = GitleaksResult.proceed := by
    unfold runGitleaks
    rw [if_pos h]
  refine ⟨rfl, ?_⟩
  unfold runPipeline
  rw [h1]
  rfl

/-- Witness for C7 at scanner exit 0. -/
theorem c7_missing_file_empty_findings_witness :
    process_output none = POResult.ok [] ∧
      runPipeline 0 ("scratch") none = ⟨reportDoc [], 0, false⟩ :=
  c7_missing_file_empty_findings 0 ("scratch") (Or.inl rfl)

/-- C8 counterexample: on a file already holding the reshaped document
`process_output` neither writes an ErrorDocument nor completes as a no-op —
it raises an uncaught `TypeError` (the claim's two permitted outcomes both
fail), though the file content is indeed left unchanged. -/
theorem c8_reshaped_input_crashes :
    process_output (some (reportDoc [])) = POResult.crash PyExc.typeError (reportDoc []) ∧
      (process_output (some (reportDoc []))).wroteError = false ∧
      (process_output (some (reportDoc []))).completedOk = false :=
  ⟨rfl, rfl, rfl⟩

/-- C8 amended: re-running the reshape on a file holding `{"findings":...}`
iterates the top-level dict, subscripts its key string, and raises an
uncaught `TypeError`: the program terminates by traceback with exit status
1, no ErrorDocument is written, and the file content is left unchanged (so
it is not corrupted further, but the run is neither a clean error nor a
no-op). -/
theorem c8_reshape_twice_uncaught_typeerror (fs : List Finding) :
    process_output (some (reportDoc fs)) = POResult.crash PyExc.typeError (reportDoc fs) ∧
      runPipeline 0 ("") (some (reportDoc fs)) = ⟨reportDoc fs, 1, true⟩ :=
  ⟨rfl, rfl⟩

/-- C9: the `__main__` source validation consults only `Path(source).exists()`
— any existing path (file or directory alike) proceeds to the Invoker, and
only a missing flag or a nonexistent path yields the code-2 error. -/
theorem c9_source_validation_existence_only (s : String) (existsFn : String → Bool)
    (h : s ≠ "") :
    (validateSource (some s) existsFn = ValidationResult.proceed ↔ existsFn s = true) ∧
      validateSource none existsFn =
        ValidationResult.fail ⟨2, "Gitleaks scan failed: please provide a source folder"⟩
          ("output.json") 2 := by
  refine ⟨?_, rfl⟩
  simp only [validateSource, if_neg h]
  cases hx : existsFn s <;> simp [hx]

/-- Witness for C9: an existing path is accepted. -/
theorem c9_source_validation_existence_only_witness :
    validateSource (some ("a.txt")) (fun _ => true) = ValidationResult.proceed :=
  (c9_source_validation_existence_only ("a.txt") (fun _ => true) (by decide)).1.mpr rfl

/-- C1 counterexample: a run whose report file holds text `json.load`
rejects terminates (traceback, exit status 1) with the file still holding
the raw scanner output, which is not a ReportDocument or ErrorDocument. -/
theorem c1_raw_content_survives_crash :
    runPipeline 0 ("") (some (Content.text ("garbage"))) =
      ⟨Content.text ("garbage"), 1, true⟩ ∧
      isDocShape ((runPipeline 0 ("") (some (Content.text ("garbage")))).fileContent) = false :=
  ⟨rfl, rfl⟩

/-- C1 amended: for every run that terminates without an uncaught exception,
the report file holds exactly one well-formed JSON document matching the
ReportDocument or ErrorDocument shape; a run that crashes on an uncaught
exception (unparsable JSON, non-array top level, non-dict record) instead
leaves whatever content was already there. -/
theorem c1_terminal_doc_shape (c : Int) (s : String) (f : Option Content)
    (h : (runPipeline c s f).crashed = false) :
    isDocShape (runPipeline c s f).fileContent = true := by
  unfold runPipeline at h ⊢
  cases hg : runGitleaks c s with
  | fail err c2 => exact isDocShape_errorDoc err
  | proceed =>
    cases hp : process_output f with
    | ok fs => exact isDocShape_reportDoc fs
    | errorWritten e => exact isDocShape_errorDoc e
    | crash e cc =>
      rw [hg, hp] at h
      exact Bool.noConfusion h

/-- Witness for C1 amended: the empty successful run ends with a
document-shaped file. -/
theorem c1_terminal_doc_shape_witness :
    isDocShape (runPipeline 0 ("") none).fileContent = true :=
  c1_terminal_doc_shape 0 ("") none rfl

/-- C2 counterexample: scanner exit 126 with an unknown-flag stderr writes
the ErrorDocument with `exit_code` 2, but the program then exits with the
scanner's own code 126, not with the classification code 2. -/
theorem c2_scanner_code_not_two :
    (runGitleaks 126 ("unknown flag: --jit\n")).writtenDoc =
      some ⟨2, "Gitleaks scan failed: unknown argument \x27--jit\x27."⟩ ∧
      (runGitleaks 126 ("unknown flag: --jit\n")).sysExitCode = some 126 ∧
      ((runGitleaks 126 ("unknown flag: --jit\n")).sysExitCode == some 2) = false :=
  ⟨rfl, rfl, rfl⟩

/-- C2 amended: on a scanner exit code other than 0 and 1 whose stderr
contains the unknown-flag marker, `run_gitleaks` writes an ErrorDocument
with `exit_code` 2 and the message "Gitleaks scan failed: unknown argument
'token'." where the token is everything after the last occurrence of the
marker up to the next line break, but terminates the program with the
scanner's own exit code, not with the classification code 2. -/
theorem c2_unknown_flag_doc_and_exit (c : Int) (s : String) (h : ¬(c = 0 ∨ c = 1))
    (hm : pyContains (stderrMessage s) ("unknown flag") = true) :
    runGitleaks c s =
      GitleaksResult.fail
        ⟨2, "Gitleaks scan failed: unknown argument \x27" ++
          extractUnknownFlag (stderrMessage s) ++ "\x27."⟩ c := by
  unfold runGitleaks
  rw [if_neg h]
  simp [hm]

/-- Witness for C2 amended at scanner exit 126. -/
theorem c2_unknown_flag_doc_and_exit_witness :
    runGitleaks 126 ("unknown flag: --jit\n") =
      GitleaksResult.fail ⟨2, "Gitleaks scan failed: unknown argument \x27--jit\x27."⟩ 126 :=
  c2_unknown_flag_doc_and_exit 126 ("unknown flag: --jit\n") (by decide) rfl

/-- C3: on a JSON array of records each carrying `File` (string),
`StartLine`, `EndLine` and `Description` (string), the reshape yields one
`Finding` per record in order — filename from `File`, description from
`Description`, line range the f-string of `StartLine` and `EndLine` — and
the run ends with the findings document on disk and exit status 0. -/
theorem c3_reshape_valid_records (items : List JValue) (h : items.all isValidRecord = true) :
    process_output (some (Content.json (JValue.arr items))) =
      POResult.ok (items.map mkFinding) ∧
      runPipeline 0 ("") (some (Content.json (JValue.arr items))) =
        ⟨reportDoc (items.map mkFinding), 0, false⟩ := by
  have hm := mapFindings_valid items h
  have h1 : process_output (some (Content.json (JValue.arr items))) =
      POResult.ok (items.map mkFinding) := by
    simp [process_output, Option.getD, hm]
  refine ⟨h1, ?_⟩
  unfold runPipeline
  rw [show runGitleaks 0 ("") = GitleaksResult.proceed from rfl, h1]

/-- Witness for C3 on the spec's concrete scenario record. -/
theorem c3_reshape_valid_records_witness :
    process_output (some (Content.json (JValue.arr
      [JValue.obj [(("File"), JValue.str ("a.py")), (("StartLine"), JValue.num 12),
                   (("EndLine"), JValue.num 12), (("Description"), JValue.str ("AWS key"))]]))) =
      POResult.ok [⟨"a.py", "12-12", "AWS key"⟩] ∧
      runPipeline 0 ("") (some (Content.json (JValue.arr
        [JValue.obj [(("File"), JValue.str ("a.py")), (("StartLine"), JValue.num 12),
                     (("EndLine"), JValue.num 12), (("Description"), JValue.str ("AWS key"))]]))) =
        ⟨reportDoc [⟨"a.py", "12-12", "AWS key"⟩], 0, false⟩ :=
  c3_reshape_valid_records
    [JValue.obj [(("File"), JValue.str ("a.py")), (("StartLine"), JValue.num 12),
                 (("EndLine"), JValue.num 12), (("Description"), JValue.str ("AWS key"))]] rfl

/-- C4 counterexample: with records `[5, {}]` the run contains a record
failing validation (`{}` is missing every key), yet no ErrorDocument is
written — subscripting the non-dict record `5` raises an uncaught
`TypeError` first and the file keeps the raw array. -/
theorem c4_nonobject_record_crashes :
    isValidRecord (JValue.obj []) = false ∧
      process_output (some (Content.json (JValue.arr [JValue.num 5, JValue.obj []]))) =
        POResult.crash PyExc.typeError
          (Content.json (JValue.arr [JValue.num 5, JValue.obj []])) ∧
      (process_output (some (Content.json
        (JValue.arr [JValue.num 5, JValue.obj []])))).wroteError = false :=
  ⟨rfl, rfl, rfl⟩

/-- C4 amended: provided every record is a JSON dict, any validation failure
(missing key or ill-typed `File`/`Description`) aborts the whole reshape:
the file ends up holding only an ErrorDocument with `exit_code` 1 whose
message is the raised exception's description, and the program exits 1; a
non-dict record instead raises an uncaught `TypeError` with no
ErrorDocument written. -/
theorem c4_validation_failure_aborts (items : List JValue)
    (hobj : items.all isObjRecord = true)
    (hbad : items.any (fun it => !isValidRecord it) = true) :
    ∃ e : PyExc, e.caught = true ∧
      process_output (some (Content.json (JValue.arr items))) =
        POResult.errorWritten ⟨1, e.msg⟩ ∧
      runPipeline 0 ("") (some (Content.json (JValue.arr items))) =
        ⟨errorDoc ⟨1, e.msg⟩, 1, false⟩ := by
  obtain ⟨e, he, hc⟩ := mapFindings_invalid items hobj hbad
  have h1 : process_output (some (Content.json (JValue.arr items))) =
      POResult.errorWritten ⟨1, e.msg⟩ := by
    simp [process_output, Option.getD, he, hc]
  refine ⟨e, hc, h1, ?_⟩
  unfold runPipeline
  rw [show runGitleaks 0 ("") = GitleaksResult.proceed from rfl, h1]

/-- Witness for C4 amended on a single dict record missing every key. -/
theorem c4_validation_failure_aborts_witness :
    (process_output (some (Content.json (JValue.arr [JValue.obj []])))).isErrorWrite1 = true := by
  obtain ⟨e, hc, hp, hr⟩ := c4_validation_failure_aborts [JValue.obj []] rfl rfl
  rw [hp]
  rfl

/-- C10: every argparse error and every source-validation error writes its
ErrorDocument to the literal path "output.json" — independent of any
report-path argument (neither error path even receives one). -/
theorem c10_cli_errors_write_default_path (message : String) (src : Option String)
    (existsFn : String → Bool) :
    (parserError message).targetPath = some ("output.json") ∧
      ((validateSource src existsFn).targetPath = none ∨
        (validateSource src existsFn).targetPath = some ("output.json")) := by
  refine ⟨rfl, ?_⟩
  cases src with
  | none => exact Or.inr rfl
  | some s =>
    by_cases hs : s = ""
    · subst hs
      exact Or.inr rfl
    · simp only [validateSource, if_neg hs]
      cases hx : existsFn s <;> simp [hx, ValidationResult.targetPath]

end GitleaksDetection
